import Mathlib

/-!
Verification of the time-window reducers and the TTL cache of the DeFi
analytics dashboard.

The development shallowly embeds:
* `filterDataByTimeWindow` from `src/eth-chart/app/components/TimeWindowFilter.tsx`
  (date-cutoff reducer over a JS `Date` model at day granularity),
* `optimizeDataForTimeWindow` and the `DataCache` class from
  `src/unnamed/part_001` (count-based reducer with a string-keyed TTL memo).

JS `Date` mutation (`setFullYear`/`setMonth`/`setDate`) is modelled by the
civil-calendar day-number arithmetic those setters perform, including the
overflow normalization JS applies (e.g. Feb 31 rolls into March).  The global
mutable cache is modelled by explicit state passing; wall-clock reads
(`Date.now()`) become an explicit `now : Int` (milliseconds) argument.
-/

/-- The seven selectable window labels of `TimeWindow` in
`TimeWindowFilter.tsx`: `'ALL' | '3Y' | '1Y' | '6M' | '3M' | '1M' | '1W'`. -/
inductive TimeWindow where
  | ALL
  | Y3
  | Y1
  | M6
  | M3
  | M1
  | W1
deriving DecidableEq, Repr

/-- The string label of a window, as it appears in the cache key
`optimized_${timeWindow}_${data.length}` of `optimizeDataForTimeWindow`. -/
def twLabel : TimeWindow → String
  | TimeWindow.ALL => "ALL"
  | TimeWindow.Y3 => "3Y"
  | TimeWindow.Y1 => "1Y"
  | TimeWindow.M6 => "6M"
  | TimeWindow.M3 => "3M"
  | TimeWindow.M1 => "1M"
  | TimeWindow.W1 => "1W"

/-- Day number (days since 1970-01-01) of a civil date, with JS `Date`
normalization: `month0` is the JS 0-based month and may be any integer
(overflowing into adjacent years, as `setMonth` does), and `day` is the
1-based day-of-month and may be any integer (overflowing into adjacent
months, as `setDate` does). -/
def daysOfCivil (year month0 day : Int) : Int :=
  let yn := year + Int.fdiv month0 12
  let m1 := Int.emod month0 12 + 1
  let y := if m1 ≤ 2 then yn - 1 else yn
  let era := Int.fdiv y 400
  let yoe := y - era * 400
  let mp := if m1 > 2 then m1 - 3 else m1 + 9
  let doy := Int.fdiv (153 * mp + 2) 5 + day - 1
  let doe := yoe * 365 + Int.fdiv yoe 4 - Int.fdiv yoe 100 + doy
  era * 146097 + doe - 719468

/-- The current date as JS `new Date()` exposes it to the reducer:
`getFullYear()`, `getMonth()` (0-based), `getDate()` (1-based). -/
structure CivilDate where
  year : Int
  month : Int
  day : Int
deriving DecidableEq, Repr

/-- One point of a time series: the parsed `item.date` as a day number,
plus a numeric payload standing for the point's metrics. -/
structure DataPoint where
  date : Int
  value : Int
deriving DecidableEq, Repr

/-- The `switch (timeWindow)` of `filterDataByTimeWindow`: the cutoff date
obtained by mutating a copy of `now` with `setFullYear`/`setMonth`/`setDate`.
`ALL` never reaches the switch; its value here is the unmodified `now`. -/
def cutoffDays (now : CivilDate) : TimeWindow → Int
  | TimeWindow.ALL => daysOfCivil now.year now.month now.day
  | TimeWindow.Y3 => daysOfCivil (now.year - 3) now.month now.day
  | TimeWindow.Y1 => daysOfCivil (now.year - 1) now.month now.day
  | TimeWindow.M6 => daysOfCivil now.year (now.month - 6) now.day
  | TimeWindow.M3 => daysOfCivil now.year (now.month - 3) now.day
  | TimeWindow.M1 => daysOfCivil now.year (now.month - 1) now.day
  | TimeWindow.W1 => daysOfCivil now.year now.month (now.day - 7)

/-- `filterDataByTimeWindow` from `TimeWindowFilter.tsx`: return the input
unchanged for `'ALL'` or an empty input, otherwise keep the points whose
date is `>=` the computed cutoff. -/
def filterDataByTimeWindow (data : List DataPoint) (now : CivilDate)
    (timeWindow : TimeWindow) : List DataPoint :=
  if timeWindow = TimeWindow.ALL ∨ data = [] then data
  else
    let cutoffDate := cutoffDays now timeWindow
    data.filter (fun item => decide (cutoffDate ≤ item.date))

/-- A `CacheEntry<T>` of `part_001`: the stored data, the creation
timestamp (`Date.now()` milliseconds) and the ttl in milliseconds. -/
structure CacheEntry (α : Type) where
  data : α
  timestamp : Int
  ttl : Int
deriving DecidableEq, Repr

/-- Lookup in the JS `Map` backing the cache. -/
def mapLookup {α : Type} (m : List (String × CacheEntry α)) (k : String) :
    Option (CacheEntry α) :=
  match m with
  | [] => none
  | (k', v) :: rest => if k' = k then some v else mapLookup rest k

/-- `Map.set`: overwrite an existing entry in place, else append. -/
def mapInsert {α : Type} (m : List (String × CacheEntry α)) (k : String)
    (v : CacheEntry α) : List (String × CacheEntry α) :=
  match m with
  | [] => [(k, v)]
  | (k', v') :: rest =>
      if k' = k then (k, v) :: rest else (k', v') :: mapInsert rest k v

/-- `Map.delete`: remove the entry for a key, if present. -/
def mapDelete {α : Type} (m : List (String × CacheEntry α)) (k : String) :
    List (String × CacheEntry α) :=
  match m with
  | [] => []
  | (k', v') :: rest =>
      if k' = k then rest else (k', v') :: mapDelete rest k

/-- The `DataCache` class of `part_001`: a string-keyed map of entries. -/
structure DataCache (α : Type) where
  cache : List (String × CacheEntry α)
deriving DecidableEq, Repr

/-- `DataCache.set(key, data, ttlMinutes)`: store the data with the current
timestamp and the ttl converted to milliseconds. -/
def DataCache.set {α : Type} (c : DataCache α) (now : Int) (key : String)
    (data : α) (ttlMinutes : Int) : DataCache α :=
  ⟨mapInsert c.cache key ⟨data, now, ttlMinutes * 60 * 1000⟩⟩

/-- `DataCache.get(key)`: `null` when absent; when present but
`now - entry.timestamp > entry.ttl`, delete the entry and return `null`;
otherwise return the stored data.  The mutated cache is returned alongside. -/
def DataCache.get {α : Type} (c : DataCache α) (now : Int) (key : String) :
    Option α × DataCache α :=
  match mapLookup c.cache key with
  | none => (none, c)
  | some entry =>
      if now - entry.timestamp > entry.ttl then (none, ⟨mapDelete c.cache key⟩)
      else (some entry.data, c)

/-- `DataCache.has(key)`: the same expiry check as `get`, returning a
Boolean; it also deletes an expired entry it finds. -/
def DataCache.has {α : Type} (c : DataCache α) (now : Int) (key : String) :
    Bool × DataCache α :=
  match mapLookup c.cache key with
  | none => (false, c)
  | some entry =>
      if now - entry.timestamp > entry.ttl then (false, ⟨mapDelete c.cache key⟩)
      else (true, c)

/-- The fresh global cache instance `new DataCache()`. -/
def DataCache.empty {α : Type} : DataCache α := ⟨[]⟩

/-- The module-level `dataCache` used by `optimizeDataForTimeWindow`,
in its initial state. -/
def emptyCache : DataCache (List DataPoint) := DataCache.empty

/-- `Array.prototype.filter` with the element index, as used by the `3M`
and `1Y` branches of `optimizeDataForTimeWindow`. -/
def filterIdxFrom {α : Type} (p : Nat → Bool) (i : Nat) :
    List α → List α
  | [] => []
  | a :: as =>
      if p i then a :: filterIdxFrom p (i + 1) as else filterIdxFrom p (i + 1) as

/-- The `if`/`else if` chain of `optimizeDataForTimeWindow` that computes
`optimizedData` from `data` once the cache misses. -/
def reduceForWindow (timeWindow : TimeWindow) (data : List DataPoint) :
    List DataPoint :=
  if timeWindow = TimeWindow.W1 ∧ data.length > 7 then
    data.drop (data.length - 7)
  else if timeWindow = TimeWindow.M1 ∧ data.length > 60 then
    data.drop (data.length - 30)
  else if timeWindow = TimeWindow.M3 ∧ data.length > 180 then
    filterIdxFrom
      (fun index => (index % 2 == 0) ||
        decide ((data.length : Int) - 90 ≤ (index : Int))) 0 data
  else if timeWindow = TimeWindow.Y1 ∧ data.length > 365 then
    filterIdxFrom
      (fun index => (index % 7 == 0) ||
        decide ((data.length : Int) - 365 ≤ (index : Int))) 0 data
  else data

/-- `optimizeDataForTimeWindow` from `part_001`: return the input for
`'ALL'` or empty input, else consult the cache under key
`optimized_${timeWindow}_${data.length}`; on a miss compute `optimizedData`
and store it with a 30-minute ttl.  The global cache is threaded
explicitly. -/
def optimizeDataForTimeWindow (cache : DataCache (List DataPoint))
    (now : Int) (data : List DataPoint) (timeWindow : TimeWindow) :
    List DataPoint × DataCache (List DataPoint) :=
  if timeWindow = TimeWindow.ALL ∨ data = [] then (data, cache)
  else
    let cacheKey := "optimized_" ++ twLabel timeWindow ++ "_" ++ toString data.length
    match cache.get now cacheKey with
    | (some cached, c1) => (cached, c1)
    | (none, c1) =>
        let optimizedData := reduceForWindow timeWindow data
        (optimizedData, c1.set now cacheKey optimizedData 30)

/-- The latest (maximum) date occurring in a series; `0` for the empty
series, which the claims never use. -/
def latestDate : List DataPoint → Int
  | [] => 0
  | p :: ps => ps.foldl (fun acc q => max acc q.date) p.date

set_option maxRecDepth 10000

/-! ### Helper lemmas -/

/-- Folding `max` over dates never goes below its initial value. -/
theorem init_le_foldlMax (l : List DataPoint) :
    ∀ init : Int, init ≤ l.foldl (fun acc q => max acc q.date) init := by
  induction l with
  | nil => intro init; exact le_refl init
  | cons p ps ih =>
      intro init
      exact le_trans (le_max_left init p.date) (ih (max init p.date))

/-- Every date in the list is bounded by the fold of `max`. -/
theorem mem_le_foldlMax (l : List DataPoint) :
    ∀ (init : Int) (q : DataPoint), q ∈ l →
      q.date ≤ l.foldl (fun acc q => max acc q.date) init := by
  induction l with
  | nil => intro _ q hq; cases hq
  | cons p ps ih =>
      intro init q hq
      rcases List.mem_cons.mp hq with h | h
      · subst h
        exact le_trans (le_max_right init q.date) (init_le_foldlMax ps (max init q.date))
      · exact ih (max init p.date) q h

/-- Every point of a series has date at most `latestDate`. -/
theorem date_le_latestDate (data : List DataPoint) (q : DataPoint)
    (hq : q ∈ data) : q.date ≤ latestDate data := by
  cases data with
  | nil => cases hq
  | cons p ps =>
      rcases List.mem_cons.mp hq with h | h
      · subst h; exact init_le_foldlMax ps q.date
      · exact mem_le_foldlMax ps p.date q h

/-! ### C2: cache `get` respects the ttl, with a strict-inequality expiry -/

/-- C2 counterexample: after `set` at time 0 with a 1-minute ttl, `get` at
time 60000 has elapsed time exactly equal to the ttl; the claim says the
entry is then expired (absence and eviction), but the code returns the
stored value and leaves the cache untouched, because expiry requires
elapsed time strictly greater than the ttl. -/
theorem c2_ttl_boundary_counterexample :
    ((60000 : Int) - 0 ≥ 1 * 60 * 1000)
    ∧ (DataCache.set (DataCache.empty : DataCache Int) 0 "k" 42 1).get 60000 "k"
      = (some 42, DataCache.set (DataCache.empty : DataCache Int) 0 "k" 42 1) := by
  constructor
  · decide
  · rfl

/-- C2 (amended): when an entry is present, `get` returns the stored value
and leaves the cache unchanged if the elapsed time is at most the ttl, and
returns `none` while deleting the entry if the elapsed time strictly
exceeds the ttl. -/
theorem c2_get_ttl {α : Type} (c : DataCache α) (now : Int) (key : String)
    (e : CacheEntry α) (hlook : mapLookup c.cache key = some e) :
    (now - e.timestamp ≤ e.ttl → c.get now key = (some e.data, c))
    ∧ (now - e.timestamp > e.ttl →
        c.get now key = (none, ⟨mapDelete c.cache key⟩)) := by
  constructor
  · intro h
    simp only [DataCache.get, hlook]
    rw [if_neg (by omega)]
  · intro h
    simp only [DataCache.get, hlook]
    rw [if_pos h]

/-- Witness for `c2_get_ttl` at a concrete cache and time. -/
theorem c2_get_ttl_witness :
    (DataCache.set (DataCache.empty : DataCache Int) 0 "k" 7 1).get 59999 "k"
      = (some 7, DataCache.set (DataCache.empty : DataCache Int) 0 "k" 7 1) :=
  (c2_get_ttl (DataCache.set (DataCache.empty : DataCache Int) 0 "k" 7 1)
    59999 "k" ⟨7, 0, 60000⟩ (by decide)).1 (by decide)

/-! ### C3: identity for `ALL` and for empty input -/

/-- C3: for window `ALL` both reducers return the input unchanged for every
input, and the empty input is returned unchanged for every window label. -/
theorem c3_all_and_empty_identity :
    (∀ (data : List DataPoint) (now : CivilDate),
        filterDataByTimeWindow data now TimeWindow.ALL = data)
    ∧ (∀ (now : CivilDate) (tw : TimeWindow),
        filterDataByTimeWindow [] now tw = [])
    ∧ (∀ (c : DataCache (List DataPoint)) (now : Int) (data : List DataPoint),
        (optimizeDataForTimeWindow c now data TimeWindow.ALL).1 = data)
    ∧ (∀ (c : DataCache (List DataPoint)) (now : Int) (tw : TimeWindow),
        (optimizeDataForTimeWindow c now [] tw).1 = []) := by
  refine ⟨fun data now => ?_, fun now tw => ?_, fun c now data => ?_,
    fun c now tw => ?_⟩
  · simp [filterDataByTimeWindow]
  · simp [filterDataByTimeWindow]
  · simp [optimizeDataForTimeWindow]
  · simp [optimizeDataForTimeWindow]

/-! ### C8: `has` agrees with `get` -/

/-- C8: `has` returns `true` exactly when `get` at the same moment would
return a stored value, and both leave the cache in the same state,
including the eviction of an expired entry. -/
theorem c8_has_agrees_with_get {α : Type} (c : DataCache α) (now : Int)
    (key : String) :
    ((c.has now key).1 = true ↔ ((c.get now key).1).isSome = true)
    ∧ (c.has now key).2 = (c.get now key).2 := by
  cases h : mapLookup c.cache key with
  | none => simp [DataCache.has, DataCache.get, h]
  | some e =>
      by_cases ht : now - e.timestamp > e.ttl
      · simp only [DataCache.has, DataCache.get, h]
        rw [if_pos ht, if_pos ht]
        simp
      · simp only [DataCache.has, DataCache.get, h]
        rw [if_neg ht, if_neg ht]
        simp

/-! ### C1: cutoff filtering and date bounds -/

/-- C1: for a non-`ALL` window and non-empty input, the output contains
exactly the input points whose date is at least the cutoff obtained by
subtracting the window's calendar offset from the current date, and every
retained point's date lies between that cutoff and the latest date of the
input. -/
theorem c1_cutoff_bounds (data : List DataPoint) (now : CivilDate)
    (tw : TimeWindow) (hALL : tw ≠ TimeWindow.ALL) (hne : data ≠ []) :
    (∀ p : DataPoint, p ∈ filterDataByTimeWindow data now tw ↔
        p ∈ data ∧ cutoffDays now tw ≤ p.date)
    ∧ ∀ p : DataPoint, p ∈ filterDataByTimeWindow data now tw →
        cutoffDays now tw ≤ p.date ∧ p.date ≤ latestDate data := by
  have hfil : filterDataByTimeWindow data now tw
      = data.filter (fun item => decide (cutoffDays now tw ≤ item.date)) := by
    unfold filterDataByTimeWindow
    rw [if_neg (by simp [hALL, hne])]
  constructor
  · intro p
    rw [hfil, List.mem_filter]
    simp
  · intro p hp
    rw [hfil, List.mem_filter] at hp
    refine ⟨by simpa using hp.2, date_le_latestDate data p hp.1⟩

/-- Witness for `c1_cutoff_bounds` at a one-point series. -/
theorem c1_cutoff_bounds_witness :
    cutoffDays ⟨2025, 8, 2⟩ TimeWindow.Y1 ≤ (DataPoint.mk 20000 0).date
    ∧ (DataPoint.mk 20000 0).date ≤ latestDate [DataPoint.mk 20000 0] :=
  (c1_cutoff_bounds [DataPoint.mk 20000 0] ⟨2025, 8, 2⟩ TimeWindow.Y1
      (by decide) (by decide)).2 (DataPoint.mk 20000 0) (by decide)

/-! ### Cache-miss behaviour of the count-based reducer -/

/-- From the empty cache the memo lookup misses, so the reducer returns the
branch computation. -/
theorem optimize_empty_miss (now : Int) (data : List DataPoint)
    (tw : TimeWindow) (hALL : tw ≠ TimeWindow.ALL) (hne : data ≠ []) :
    (optimizeDataForTimeWindow emptyCache now data tw).1
      = reduceForWindow tw data := by
  unfold optimizeDataForTimeWindow
  rw [if_neg (by simp [hALL, hne])]
  rfl

/-! ### C4: `1W` and `1M` truncation -/

/-- C4: from the empty cache, window `1W` on more than 7 points returns
exactly the last 7 points in order, and window `1M` on more than 60 points
returns exactly the last 30 points. -/
theorem c4_tail_truncation (data : List DataPoint) (now : Int) :
    (data.length > 7 →
      (optimizeDataForTimeWindow emptyCache now data TimeWindow.W1).1
        = data.drop (data.length - 7))
    ∧ (data.length > 60 →
      (optimizeDataForTimeWindow emptyCache now data TimeWindow.M1).1
        = data.drop (data.length - 30)) := by
  constructor
  · intro h7
    have hne : data ≠ [] := by
      intro h; rw [h] at h7; simp at h7
    rw [optimize_empty_miss now data TimeWindow.W1 (by simp) hne]
    unfold reduceForWindow
    rw [if_pos ⟨rfl, h7⟩]
  · intro h60
    have hne : data ≠ [] := by
      intro h; rw [h] at h60; simp at h60
    rw [optimize_empty_miss now data TimeWindow.M1 (by simp) hne]
    unfold reduceForWindow
    rw [if_neg (by simp), if_pos ⟨rfl, h60⟩]

/-- Witness for `c4_tail_truncation` on an 8-point series. -/
theorem c4_tail_truncation_witness :
    (optimizeDataForTimeWindow emptyCache 0
        ((List.range 8).map (fun i => ⟨i, i⟩)) TimeWindow.W1).1
      = ((List.range 8).map (fun i => (⟨i, i⟩ : DataPoint))).drop
          (((List.range 8).map (fun i => (⟨i, i⟩ : DataPoint))).length - 7) :=
  (c4_tail_truncation ((List.range 8).map (fun i => ⟨i, i⟩)) 0).1 (by decide)

/-! ### C10: windows with no reduction branch -/

/-- C10: from the empty cache, windows `3Y` and `6M` return the input
unchanged for every input, and `3M` (resp. `1Y`) returns the input
unchanged whenever the input has at most 180 (resp. 365) points. -/
theorem c10_identity_windows (data : List DataPoint) (now : Int) :
    ((optimizeDataForTimeWindow emptyCache now data TimeWindow.Y3).1 = data)
    ∧ ((optimizeDataForTimeWindow emptyCache now data TimeWindow.M6).1 = data)
    ∧ (data.length ≤ 180 →
        (optimizeDataForTimeWindow emptyCache now data TimeWindow.M3).1 = data)
    ∧ (data.length ≤ 365 →
        (optimizeDataForTimeWindow emptyCache now data TimeWindow.Y1).1 = data) := by
  by_cases hne : data = []
  · subst hne
    simp [optimizeDataForTimeWindow]
  · refine ⟨?_, ?_, fun h180 => ?_, fun h365 => ?_⟩
    · rw [optimize_empty_miss now data TimeWindow.Y3 (by simp) hne]
      unfold reduceForWindow
      rw [if_neg (by simp), if_neg (by simp), if_neg (by simp), if_neg (by simp)]
    · rw [optimize_empty_miss now data TimeWindow.M6 (by simp) hne]
      unfold reduceForWindow
      rw [if_neg (by simp), if_neg (by simp), if_neg (by simp), if_neg (by simp)]
    · rw [optimize_empty_miss now data TimeWindow.M3 (by simp) hne]
      unfold reduceForWindow
      rw [if_neg (by simp), if_neg (by simp), if_neg (by omega), if_neg (by simp)]
    · rw [optimize_empty_miss now data TimeWindow.Y1 (by simp) hne]
      unfold reduceForWindow
      rw [if_neg (by simp), if_neg (by simp), if_neg (by simp), if_neg (by omega)]

/-- Witness for `c10_identity_windows` on a two-point series. -/
theorem c10_identity_windows_witness :
    (optimizeDataForTimeWindow emptyCache 0
        [DataPoint.mk 1 1, DataPoint.mk 2 2] TimeWindow.M3).1
      = [DataPoint.mk 1 1, DataPoint.mk 2 2] :=
  (c10_identity_windows [DataPoint.mk 1 1, DataPoint.mk 2 2] 0).2.2.1 (by decide)

/-! ### C7: the output is always a subsequence of the input -/

/-- The indexed filter yields a subsequence, whatever the start index. -/
theorem filterIdxFrom_sublist {α : Type} (p : Nat → Bool) :
    ∀ (l : List α) (i : Nat), List.Sublist (filterIdxFrom p i l) l
  | [], _ => List.Sublist.slnil
  | a :: as, i => by
      unfold filterIdxFrom
      split
      · exact List.Sublist.cons₂ a (filterIdxFrom_sublist p as (i + 1))
      · exact List.Sublist.cons a (filterIdxFrom_sublist p as (i + 1))

/-- Every branch of the count-based reducer yields a subsequence. -/
theorem reduceForWindow_sublist (tw : TimeWindow) (data : List DataPoint) :
    List.Sublist (reduceForWindow tw data) data := by
  unfold reduceForWindow
  split
  · exact List.drop_sublist _ _
  split
  · exact List.drop_sublist _ _
  split
  · exact filterIdxFrom_sublist _ data 0
  split
  · exact filterIdxFrom_sublist _ data 0
  · exact List.Sublist.refl data

/-- C7: for every window and every input, both reducers return a
subsequence of the input — relative order is preserved and no point is
duplicated or reordered. -/
theorem c7_output_sublist :
    (∀ (data : List DataPoint) (now : CivilDate) (tw : TimeWindow),
        List.Sublist (filterDataByTimeWindow data now tw) data)
    ∧ (∀ (now : Int) (data : List DataPoint) (tw : TimeWindow),
        List.Sublist ((optimizeDataForTimeWindow emptyCache now data tw).1) data) := by
  constructor
  · intro data now tw
    unfold filterDataByTimeWindow
    split
    · exact List.Sublist.refl data
    · exact List.filter_sublist data
  · intro now data tw
    by_cases hALL : tw = TimeWindow.ALL
    · subst hALL
      simp [optimizeDataForTimeWindow]
    by_cases hne : data = []
    · subst hne
      simp [optimizeDataForTimeWindow]
    · rw [optimize_empty_miss now data tw hALL hne]
      exact reduceForWindow_sublist tw data

/-! ### C5: idempotence — true for date cutoff and the count branches,
false for the `3M`/`1Y` subsampling branches -/

/-- The `1W` branch of the count-based reducer, in closed form. -/
theorem reduceForWindow_W1 (data : List DataPoint) :
    reduceForWindow TimeWindow.W1 data
      = if data.length > 7 then data.drop (data.length - 7) else data := by
  unfold reduceForWindow
  by_cases h7 : data.length > 7
  · rw [if_pos ⟨rfl, h7⟩, if_pos h7]
  · rw [if_neg (by simp [h7]), if_neg (by simp), if_neg (by simp),
      if_neg (by simp), if_neg h7]

/-- The `1M` branch of the count-based reducer, in closed form. -/
theorem reduceForWindow_M1 (data : List DataPoint) :
    reduceForWindow TimeWindow.M1 data
      = if data.length > 60 then data.drop (data.length - 30) else data := by
  unfold reduceForWindow
  by_cases h60 : data.length > 60
  · rw [if_neg (by simp), if_pos ⟨rfl, h60⟩, if_pos h60]
  · rw [if_neg (by simp), if_neg (by simp [h60]), if_neg (by simp),
      if_neg (by simp), if_neg h60]

/-- Windows without any reduction branch leave the input unchanged. -/
theorem reduceForWindow_id (tw : TimeWindow) (data : List DataPoint)
    (hW : tw ≠ TimeWindow.W1) (hM1 : tw ≠ TimeWindow.M1)
    (hM3 : tw ≠ TimeWindow.M3) (hY1 : tw ≠ TimeWindow.Y1) :
    reduceForWindow tw data = data := by
  unfold reduceForWindow
  rw [if_neg (by simp [hW]), if_neg (by simp [hM1]), if_neg (by simp [hM3]),
    if_neg (by simp [hY1])]

/-- Outside the two subsampling branches the count-based reduction is
idempotent. -/
theorem reduceForWindow_idem (tw : TimeWindow) (data : List DataPoint)
    (h3 : tw ≠ TimeWindow.M3) (h1 : tw ≠ TimeWindow.Y1) :
    reduceForWindow tw (reduceForWindow tw data) = reduceForWindow tw data := by
  by_cases hW : tw = TimeWindow.W1
  · subst hW
    rw [reduceForWindow_W1, reduceForWindow_W1]
    by_cases h7 : data.length > 7
    · rw [if_pos h7, if_neg (by rw [List.length_drop]; omega)]
    · rw [if_neg h7, if_neg h7]
  by_cases hM1 : tw = TimeWindow.M1
  · subst hM1
    rw [reduceForWindow_M1, reduceForWindow_M1]
    by_cases h60 : data.length > 60
    · rw [if_pos h60, if_neg (by rw [List.length_drop]; omega)]
    · rw [if_neg h60, if_neg h60]
  · rw [reduceForWindow_id tw data hW hM1 h3 h1,
      reduceForWindow_id tw data hW hM1 h3 h1]

/-- A second run of the count-based reducer against a one-entry cache
written at the same instant returns its input when the reduction fixes that
input: either the memo key matches and the stored value (the same list) is
returned, or the key misses and the reduction recomputes it. -/
theorem optimize_singleton_fixed (nowMs : Int) (k1 : String)
    (od : List DataPoint) (tw : TimeWindow) (hALL : tw ≠ TimeWindow.ALL)
    (hred : reduceForWindow tw od = od) :
    (optimizeDataForTimeWindow ⟨[(k1, ⟨od, nowMs, 30 * 60 * 1000⟩)]⟩
        nowMs od tw).1 = od := by
  by_cases hod : od = []
  · subst hod
    simp [optimizeDataForTimeWindow]
  · unfold optimizeDataForTimeWindow
    rw [if_neg (by simp [hALL, hod])]
    simp only [DataCache.get, mapLookup]
    by_cases hk : k1 = "optimized_" ++ twLabel tw ++ "_" ++ toString od.length
    · rw [if_pos hk]
      simp
    · rw [if_neg hk]
      simp [hred]

/-- The full result of a cache-miss run from the empty cache: the reduced
list together with the one-entry cache recording it under the memo key. -/
theorem optimize_empty_miss_pair (now : Int) (data : List DataPoint)
    (tw : TimeWindow) (hALL : tw ≠ TimeWindow.ALL) (hne : data ≠ []) :
    optimizeDataForTimeWindow emptyCache now data tw
      = (reduceForWindow tw data,
         ⟨[("optimized_" ++ twLabel tw ++ "_" ++ toString data.length,
            ⟨reduceForWindow tw data, now, 30 * 60 * 1000⟩)]⟩) := by
  unfold optimizeDataForTimeWindow
  rw [if_neg (by simp [hALL, hne])]
  rfl

/-- C5 (amended): the date-cutoff reducer is idempotent for every window
(with "now" held fixed), and the count-based reducer, run again on its own
output with the cache state it produced, is idempotent for every window
except the `3M` and `1Y` subsampling branches, which can subsample a
second time. -/
theorem c5_idempotence_amended (tw : TimeWindow) (now : CivilDate)
    (nowMs : Int) (data : List DataPoint) :
    filterDataByTimeWindow (filterDataByTimeWindow data now tw) now tw
      = filterDataByTimeWindow data now tw
    ∧ (tw ≠ TimeWindow.M3 → tw ≠ TimeWindow.Y1 →
        (optimizeDataForTimeWindow
            (optimizeDataForTimeWindow emptyCache nowMs data tw).2 nowMs
            (optimizeDataForTimeWindow emptyCache nowMs data tw).1 tw).1
          = (optimizeDataForTimeWindow emptyCache nowMs data tw).1) := by
  constructor
  · by_cases hALL : tw = TimeWindow.ALL
    · subst hALL
      simp [filterDataByTimeWindow]
    by_cases hne : data = []
    · subst hne
      simp [filterDataByTimeWindow]
    have hfil : filterDataByTimeWindow data now tw
        = data.filter (fun item => decide (cutoffDays now tw ≤ item.date)) := by
      unfold filterDataByTimeWindow
      rw [if_neg (by simp [hALL, hne])]
    rw [hfil]
    by_cases hf : data.filter
        (fun item => decide (cutoffDays now tw ≤ item.date)) = []
    · rw [hf]
      simp [filterDataByTimeWindow]
    · unfold filterDataByTimeWindow
      rw [if_neg (by simp [hALL, hf])]
      rw [List.filter_filter]
      simp
  · intro h3 h1
    by_cases hALL : tw = TimeWindow.ALL
    · subst hALL
      have h : optimizeDataForTimeWindow emptyCache nowMs data TimeWindow.ALL
          = (data, emptyCache) := by
        simp [optimizeDataForTimeWindow]
      rw [h]
      simp [optimizeDataForTimeWindow]
    by_cases hne : data = []
    · subst hne
      have h : optimizeDataForTimeWindow emptyCache nowMs [] tw
          = ([], emptyCache) := by
        simp [optimizeDataForTimeWindow]
      rw [h]
      simp [optimizeDataForTimeWindow]
    · rw [optimize_empty_miss_pair nowMs data tw hALL hne]
      exact optimize_singleton_fixed nowMs _ (reduceForWindow tw data) tw hALL
        (reduceForWindow_idem tw data h3 h1)

/-- Witness for `c5_idempotence_amended` on a 9-point series with `1W`. -/
theorem c5_idempotence_amended_witness :
    (optimizeDataForTimeWindow
        (optimizeDataForTimeWindow emptyCache 0
            ((List.range 9).map (fun i => ⟨i, i⟩)) TimeWindow.W1).2 0
        (optimizeDataForTimeWindow emptyCache 0
            ((List.range 9).map (fun i => ⟨i, i⟩)) TimeWindow.W1).1
        TimeWindow.W1).1
      = (optimizeDataForTimeWindow emptyCache 0
          ((List.range 9).map (fun i => ⟨i, i⟩)) TimeWindow.W1).1 :=
  (c5_idempotence_amended TimeWindow.W1 ⟨2025, 0, 1⟩ 0
      ((List.range 9).map (fun i => ⟨i, i⟩))).2 (by decide) (by decide)

/-- C5 counterexample: the claim extends idempotence to the `3M` and `1Y`
subsampling branches, but a 271-point series under `3M` (reduced to 181
points, still above the 180 threshold) and a 373-point series under `1Y`
(reduced to 367 points, still above 365) are each subsampled again on the
second application, so the second output differs from the first. -/
theorem c5_subsample_not_idempotent :
    ((optimizeDataForTimeWindow
        (optimizeDataForTimeWindow emptyCache 0
            ((List.range 271).map (fun i => ⟨i, i⟩)) TimeWindow.M3).2 0
        (optimizeDataForTimeWindow emptyCache 0
            ((List.range 271).map (fun i => ⟨i, i⟩)) TimeWindow.M3).1
        TimeWindow.M3).1
      ≠ (optimizeDataForTimeWindow emptyCache 0
          ((List.range 271).map (fun i => ⟨i, i⟩)) TimeWindow.M3).1)
    ∧ ((optimizeDataForTimeWindow
        (optimizeDataForTimeWindow emptyCache 0
            ((List.range 373).map (fun i => ⟨i, i⟩)) TimeWindow.Y1).2 0
        (optimizeDataForTimeWindow emptyCache 0
            ((List.range 373).map (fun i => ⟨i, i⟩)) TimeWindow.Y1).1
        TimeWindow.Y1).1
      ≠ (optimizeDataForTimeWindow emptyCache 0
          ((List.range 373).map (fun i => ⟨i, i⟩)) TimeWindow.Y1).1) := by
  exact ⟨by decide, by decide⟩

/-! ### C6: the 400-day, one-year worked example -/

/-- C6: on 400 consecutive daily points ending 2025-09-01, window `1Y`
evaluated at current date 2025-09-02 computes the cutoff 2024-09-02 and
retains exactly the last 365 points. -/
theorem c6_one_year_example :
    cutoffDays ⟨2025, 8, 2⟩ TimeWindow.Y1 = daysOfCivil 2024 8 2
    ∧ filterDataByTimeWindow
        ((List.range 400).map (fun i => ⟨daysOfCivil 2025 8 1 - 399 + i, i⟩))
        ⟨2025, 8, 2⟩ TimeWindow.Y1
      = ((List.range 400).map
          (fun i => (⟨daysOfCivil 2025 8 1 - 399 + i, i⟩ : DataPoint))).drop 35
    ∧ (((List.range 400).map
          (fun i => (⟨daysOfCivil 2025 8 1 - 399 + i, i⟩ : DataPoint))).drop
            35).length = 365 := by
  exact ⟨by decide, by decide, by decide⟩

/-! ### C9: the memo key ignores the contents of the input -/

/-- C9: two different 8-point inputs of equal length collide on the memo
key `optimized_1W_8`, so within the ttl the second call returns the first
input's reduction, not its own: the function is not a pure function of its
arguments. -/
theorem c9_memo_key_collision :
    ((List.range 8).map (fun i => (⟨i, i⟩ : DataPoint))
        ≠ (List.range 8).map (fun i => (⟨i, i + 10⟩ : DataPoint)))
    ∧ ((List.range 8).map (fun i => (⟨i, i⟩ : DataPoint))).length
        = ((List.range 8).map (fun i => (⟨i, i + 10⟩ : DataPoint))).length
    ∧ (optimizeDataForTimeWindow emptyCache 0
        ((List.range 8).map (fun i => ⟨i, i⟩)) TimeWindow.W1).1
      = ((List.range 8).map (fun i => (⟨i, i⟩ : DataPoint))).drop 1
    ∧ (optimizeDataForTimeWindow
        (optimizeDataForTimeWindow emptyCache 0
            ((List.range 8).map (fun i => ⟨i, i⟩)) TimeWindow.W1).2 0
        ((List.range 8).map (fun i => ⟨i, i + 10⟩)) TimeWindow.W1).1
      = ((List.range 8).map (fun i => (⟨i, i⟩ : DataPoint))).drop 1
    ∧ (optimizeDataForTimeWindow emptyCache 0
        ((List.range 8).map (fun i => ⟨i, i + 10⟩)) TimeWindow.W1).1
      = ((List.range 8).map (fun i => (⟨i, i + 10⟩ : DataPoint))).drop 1
    ∧ ((List.range 8).map (fun i => (⟨i, i⟩ : DataPoint))).drop 1
      ≠ ((List.range 8).map (fun i => (⟨i, i + 10⟩ : DataPoint))).drop 1 := by
  refine ⟨by decide, by decide, by decide, by decide, by decide, by decide⟩
